import Mathlib

/-!
Shallow embedding of the `react-unused-props-and-state` rule
(src/src/reactUnusedPropsAndStateRule.ts) of tslint-microsoft-contrib,
and proofs about it.

The rule walks a TypeScript source file: it collects the members of the
interfaces named `Props` and `State`, queues class declarations, then walks
the queued classes removing member names from the unused sets whenever a
matching property access or alias reference is seen, and finally reports a
failure for every member name still in an unused set.

Modelling notes:
* Syntax-tree nodes are modelled by `TsNode`; only the node kinds the rule
  dispatches on are distinguished, everything else is `otherNode`.
* `node.getText()` of property-access expressions and the callee of call
  expressions is stored in the node, as the rule only consumes those texts.
* `node.parent.kind` checks are modelled by threading a `ParentCtx` into the
  traversal (the parent pointer of a syntax tree is determined by the path
  from the root, so this is equivalent).
* The JS regular-expression tests of the source (the canonical
  this.props. / this.state. patterns and the one built from the alias name
  with an escaped dot) are unanchored substring tests; they are modelled by
  `testContains` assuming the alias text contains no regex metacharacters
  (aliases are identifiers).
* `String.prototype.substring(n)` is modelled by `substringFrom`.
-/

namespace ReactUnusedPropsAndState

/-- FAILURE_UNUSED_PROP of the source. -/
def FAILURE_UNUSED_PROP : String := "Unused React property defined in interface: "

/-- FAILURE_UNUSED_STATE of the source. -/
def FAILURE_UNUSED_STATE : String := "Unused React state defined in interface: "

/-- Does the character list start with the pattern? -/
def charsStartWith : List Char → List Char → Bool
  | _, [] => true
  | [], _ :: _ => false
  | c :: cs, p :: ps => c == p && charsStartWith cs ps

/-- Does the character list contain the pattern as a contiguous sublist? -/
def charsContain (pat : List Char) : List Char → Bool
  | [] => charsStartWith [] pat
  | c :: rest => charsStartWith (c :: rest) pat || charsContain pat rest

/-- Unanchored substring test: models the regex tests of the source, whose
trailing dot-star is irrelevant for the JS `test` method. -/
def testContains (s : String) (pat : String) : Bool :=
  charsContain pat.data s.data

/-- Models JS `s.substring n` (for the ASCII texts the rule handles). -/
def substringFrom (s : String) (n : Nat) : String :=
  String.mk (s.data.drop n)

/-- Modelled from the spec: `Utils.remove` lives in src/utils/Utils.ts which
is not part of the given sources; per the spec it removes the referenced
member name from the still-unused set, modelled as filtering out every
occurrence of the element. -/
def utilsRemove (source : List String) (elem : String) : List String :=
  source.filter (fun e => e != elem)

/-- Source span of a declaration node: `getStart()` and `getWidth()`. -/
structure Span where
  start : Nat
  width : Nat
deriving DecidableEq, Repr

/-- A `ts.TypeElement` member of an interface: the `.text` of its name when
the member has a simple name (`none` models a member whose `name` is absent
or has no `.text`, which `getTypeElementData` skips), plus its span. -/
structure TypeElement where
  name : Option String
  span : Span
deriving DecidableEq, Repr

/-- A parameter declaration: the `.text` of its name when it is a simple
identifier; `none` models a binding pattern, whose cast to `ts.Identifier`
yields an undefined `.text`. -/
structure Param where
  name : Option String
deriving DecidableEq, Repr

/-- The syntax kinds the rule compares parents against, plus the kinds of
the modelled nodes. -/
inductive SynKind : Type where
  | propertyAccessExpression
  | parameter
  | callExpression
  | interfaceDeclarationKind
  | classDeclarationKind
  | constructorDeclarationKind
  | methodDeclarationKind
  | sourceFileKind
  | otherKind
deriving DecidableEq, BEq, Repr

/-- What the rule reads off `node.parent`: its kind and, when the parent is
a call expression, the `.getText()` of the call's callee (used by
`isParentNodeSuperCall`). -/
structure ParentCtx where
  kind : SynKind
  calleeText : Option String
deriving DecidableEq, Repr

mutual
/-- Embedded syntax-tree nodes. `propertyAccess` and `callExpr` store the
source text the rule consumes (`getText()` of the node / of the callee);
`children` holds the child nodes in `ts.forEachChild` order. -/
inductive TsNode : Type where
  | interfaceDecl (name : String) (members : List TypeElement) : TsNode
  | classDecl (children : TsNodeList) : TsNode
  | propertyAccess (text : String) (children : TsNodeList) : TsNode
  | identifier (text : String) : TsNode
  | thisKeyword : TsNode
  | superKeyword : TsNode
  | callExpr (calleeText : String) (children : TsNodeList) : TsNode
  | ctorDecl (params : List Param) (body : TsNodeList) : TsNode
  | methodDecl (name : String) (params : List Param) (body : TsNodeList) : TsNode
  | paramDecl (p : Param) : TsNode
  | otherNode (children : TsNodeList) : TsNode

/-- Lists of nodes, as a mutual inductive so the traversal is structural. -/
inductive TsNodeList : Type where
  | nil : TsNodeList
  | cons (head : TsNode) (tail : TsNodeList) : TsNodeList
end

/-- Build a `TsNodeList` from a `List TsNode`. -/
def nlist : List TsNode → TsNodeList
  | [] => TsNodeList.nil
  | n :: rest => TsNodeList.cons n (nlist rest)

/-- A reported rule failure: `createFailure(start, width, message)`. -/
structure Failure where
  start : Nat
  width : Nat
  message : String
deriving DecidableEq, Repr

/-- A JS string-keyed object `{ [index: string]: ts.TypeElement }`, as an
insertion-ordered association list (string keys keep insertion order). -/
abbrev NodeMap := List (String × TypeElement)

/-- JS object property assignment `m[k] = v`: overwrite in place if the key
exists, else append. -/
def upsert (m : NodeMap) (k : String) (v : TypeElement) : NodeMap :=
  if m.any (fun p => p.1 == k) then
    m.map (fun p => if p.1 == k then (k, v) else p)
  else m ++ [(k, v)]

/-- `Object.keys`. -/
def mapKeys (m : NodeMap) : List String := m.map Prod.fst

/-- JS object member lookup `m[k]`. -/
def mapLookup (m : NodeMap) (k : String) : Option TypeElement :=
  (m.find? (fun p => p.1 == k)).map Prod.snd

/-- `getTypeElementData`: members lacking a simple name are skipped. -/
def typeElementData (members : List TypeElement) : NodeMap :=
  members.foldl (fun acc te =>
    match te.name with
    | some n => upsert acc n te
    | none => acc) []

/-- The walker's mutable fields. `classDeclarations` stores the children of
each queued class declaration (phase 2 walks each queued class with
`walkChildren`). -/
structure WalkerState where
  propNames : List String
  propNodes : NodeMap
  stateNames : List String
  stateNodes : NodeMap
  classDeclarations : List TsNodeList
  propsAlias : Option String
  stateAlias : Option String

/-- The walker's initial state. -/
def initialState : WalkerState :=
  { propNames := [], propNodes := [], stateNames := [], stateNodes := []
    classDeclarations := [], propsAlias := none, stateAlias := none }

/-- `isParentNodeSuperCall`: the parent is a call expression whose callee
text is `super`. -/
def isParentNodeSuperCall (pc : ParentCtx) : Bool :=
  pc.kind == SynKind.callExpression && pc.calleeText == some "super"

/-- Lines 89-93 of the source: the canonical `this.props.X` / `this.state.X`
removal (an if / else-if chain). -/
def paeCanonical (text : String) (s : WalkerState) : WalkerState :=
  if testContains text "this.props." then
    { s with propNames := utilsRemove s.propNames (substringFrom text 11) }
  else if testContains text "this.state." then
    { s with stateNames := utilsRemove s.stateNames (substringFrom text 11) }
  else s

/-- Lines 94-98 of the source: the props-alias removal. -/
def paePropsAlias (text : String) (s : WalkerState) : WalkerState :=
  match s.propsAlias with
  | some a =>
    if testContains text (a ++ ".") then
      { s with propNames := utilsRemove s.propNames (substringFrom text (a.length + 1)) }
    else s
  | none => s

/-- Lines 99-103 of the source: the state-alias removal. -/
def paeStateAlias (text : String) (s : WalkerState) : WalkerState :=
  match s.stateAlias with
  | some a =>
    if testContains text (a ++ ".") then
      { s with stateNames := utilsRemove s.stateNames (substringFrom text (a.length + 1)) }
    else s
  | none => s

/-- Lines 104-112 of the source: escape of the whole `this.props` /
`this.state` reference (parent is not a further property access). -/
def paeEscape (pc : ParentCtx) (text : String) (s : WalkerState) : WalkerState :=
  if pc.kind != SynKind.propertyAccessExpression then
    if text == "this.props" then { s with propNames := [] }
    else if text == "this.state" then { s with stateNames := [] }
    else s
  else s

/-- The state update of `visitPropertyAccessExpression` before recursing
into children (lines 88-112 of the source, in source order). -/
def paeUpdate (pc : ParentCtx) (text : String) (s : WalkerState) : WalkerState :=
  paeEscape pc text (paeStateAlias text (paePropsAlias text (paeCanonical text s)))

/-- `visitIdentifier` (lines 116-137 of the source). -/
def visitIdentifierCore (pc : ParentCtx) (text : String) (s : WalkerState) : WalkerState :=
  let s1 :=
    match s.propsAlias with
    | some a =>
      if text == a && pc.kind != SynKind.propertyAccessExpression
          && pc.kind != SynKind.parameter
          && isParentNodeSuperCall pc == false then
        { s with propNames := [] }
      else s
    | none => s
  match s1.stateAlias with
  | some a =>
    if text == a && pc.kind != SynKind.propertyAccessExpression
        && pc.kind != SynKind.parameter then
      { s1 with stateNames := [] }
    else s1
  | none => s1

/-- Alias binding on entering a constructor (lines 143-145): the first
parameter's name text becomes the props alias. -/
def ctorEnter (params : List Param) (s : WalkerState) : WalkerState :=
  match params with
  | [] => s
  | p :: _ => { s with propsAlias := p.name }

/-- The lifecycle-hook regex for the props alias (line 152): an unanchored
alternation, i.e. a substring test for any of the four hook names. -/
def propsHookTest (name : String) : Bool :=
  testContains name "componentWillReceiveProps"
    || testContains name "shouldComponentUpdate"
    || testContains name "componentWillUpdate"
    || testContains name "componentDidUpdate"

/-- The lifecycle-hook regex for the state alias (line 156). -/
def stateHookTest (name : String) : Bool :=
  testContains name "shouldComponentUpdate"
    || testContains name "componentWillUpdate"
    || testContains name "componentDidUpdate"

/-- Alias binding on entering a method declaration (lines 151-159). -/
def methodEnter (name : String) (params : List Param) (s : WalkerState) : WalkerState :=
  let s1 :=
    match params with
    | p :: _ => if propsHookTest name then { s with propsAlias := p.name } else s
    | [] => s
  match params with
  | _ :: q :: _ => if stateHookTest name then { s1 with stateAlias := q.name } else s1
  | _ => s1

/-- The state update of `visitInterfaceDeclaration` (lines 76-83). -/
def interfaceEnter (name : String) (members : List TypeElement) (s : WalkerState) : WalkerState :=
  let s1 :=
    if name == "Props" then
      { s with propNodes := typeElementData members
               propNames := mapKeys (typeElementData members) }
    else s
  if name == "State" then
    { s1 with stateNodes := typeElementData members
              stateNames := mapKeys (typeElementData members) }
  else s1

/-- Walking the member nodes of an interface declaration: each member's name
identifier is visited with the member node (kind PropertySignature etc.) as
parent. -/
def visitTypeMembers : List TypeElement → WalkerState → WalkerState
  | [], s => s
  | te :: rest, s =>
    visitTypeMembers rest
      (match te.name with
       | some n => visitIdentifierCore (ParentCtx.mk SynKind.otherKind none) n s
       | none => s)

/-- Walking parameter declarations: a simple-identifier name is visited with
the parameter node as parent; a binding pattern contributes no identifier
here (modelling simplification: identifiers inside binding patterns are not
tracked, no claim depends on them). -/
def visitParams : List Param → WalkerState → WalkerState
  | [], s => s
  | p :: rest, s =>
    visitParams rest
      (match p.name with
       | some n => visitIdentifierCore (ParentCtx.mk SynKind.parameter none) n s
       | none => s)

mutual
/-- Modelled from the spec: the syntax-tree traversal facility (the tslint
`SyntaxWalker` base class, an external collaborator per the spec §6) which
dispatches on the node kind to the rule's visit methods and recurses into
children by default; the rule's own visit logic is taken from the source. -/
def visitNode (pc : ParentCtx) (s : WalkerState) : TsNode → WalkerState
  | TsNode.interfaceDecl name members =>
      visitTypeMembers members (interfaceEnter name members s)
  | TsNode.classDecl children =>
      { s with classDeclarations := s.classDeclarations ++ [children] }
  | TsNode.propertyAccess text children =>
      visitList (ParentCtx.mk SynKind.propertyAccessExpression none)
        (paeUpdate pc text s) children
  | TsNode.identifier text => visitIdentifierCore pc text s
  | TsNode.thisKeyword => s
  | TsNode.superKeyword => s
  | TsNode.callExpr calleeText children =>
      visitList (ParentCtx.mk SynKind.callExpression (some calleeText)) s children
  | TsNode.ctorDecl params body =>
      let s1 := ctorEnter params s
      let s2 := visitList (ParentCtx.mk SynKind.constructorDeclarationKind none)
        (visitParams params s1) body
      { s2 with propsAlias := none }
  | TsNode.methodDecl name params body =>
      let s1 := methodEnter name params s
      let s2 := visitList (ParentCtx.mk SynKind.methodDeclarationKind none)
        (visitParams params s1) body
      { s2 with propsAlias := none, stateAlias := none }
  | TsNode.paramDecl p => visitParams [p] s
  | TsNode.otherNode children =>
      visitList (ParentCtx.mk SynKind.otherKind none) s children

/-- Sequential traversal of sibling nodes, threading the walker state. -/
def visitList (pc : ParentCtx) (s : WalkerState) : TsNodeList → WalkerState
  | TsNodeList.nil => s
  | TsNodeList.cons n rest => visitList pc (visitNode pc s n) rest
end

/-- `ts.SourceFile.languageVariant`. -/
inductive LanguageVariant : Type where
  | standard
  | jsx
deriving DecidableEq, BEq, Repr

/-- A source file: its language variant and top-level statements. -/
structure SourceFile where
  languageVariant : LanguageVariant
  statements : TsNodeList

/-- Parent context of top-level statements (the source-file node). -/
def topCtx : ParentCtx := ParentCtx.mk SynKind.sourceFileKind none

/-- Parent context used when phase 2 walks a queued class's children. -/
def classCtx : ParentCtx := ParentCtx.mk SynKind.classDeclarationKind none

/-- Lines 54-56 of the source: after the phase-1 file walk, if a Props or
State member is still tracked, walk the children of every queued class
declaration. The fold iterates over the snapshot of the queue, matching
`Array.prototype.forEach` (elements appended during iteration are not
visited). -/
def phase2 (s1 : WalkerState) : WalkerState :=
  if s1.propNames.length > 0 || s1.stateNames.length > 0 then
    s1.classDeclarations.foldl (fun st ch => visitList classCtx st ch) s1
  else s1

/-- `visitSourceFile` up to reporting: the full file walk (phase 1), then
the walk of the queued class declarations (phase 2). -/
def runWalker (f : SourceFile) : WalkerState :=
  phase2 (visitList topCtx initialState f.statements)

/-- The failures reported from the remaining unused Props names (lines
58-61). The lookup cannot miss (propNames is always a subset of the keys of
propNodes); a hypothetical miss reports nothing. -/
def propFailures (s : WalkerState) : List Failure :=
  s.propNames.filterMap (fun n =>
    (mapLookup s.propNodes n).map (fun te =>
      Failure.mk te.span.start te.span.width (FAILURE_UNUSED_PROP ++ n)))

/-- The failures reported from the remaining unused State names (lines
62-65). -/
def stateFailures (s : WalkerState) : List Failure :=
  s.stateNames.filterMap (fun n =>
    (mapLookup s.stateNodes n).map (fun te =>
      Failure.mk te.span.start te.span.width (FAILURE_UNUSED_STATE ++ n)))

/-- All failures reported by `visitSourceFile`. -/
def failuresOf (s : WalkerState) : List Failure :=
  propFailures s ++ stateFailures s

/-- `Rule.apply` (lines 30-36): run the walker only on JSX-variant files. -/
def applyRule (f : SourceFile) : List Failure :=
  if f.languageVariant == LanguageVariant.jsx then failuresOf (runWalker f)
  else []

mutual
/-- No interface declaration named `Props` occurs in the subtree. -/
def noPropsIfaceN : TsNode → Bool
  | TsNode.interfaceDecl name _ => name != "Props"
  | TsNode.classDecl ch => noPropsIfaceL ch
  | TsNode.propertyAccess _ ch => noPropsIfaceL ch
  | TsNode.identifier _ => true
  | TsNode.thisKeyword => true
  | TsNode.superKeyword => true
  | TsNode.callExpr _ ch => noPropsIfaceL ch
  | TsNode.ctorDecl _ body => noPropsIfaceL body
  | TsNode.methodDecl _ _ body => noPropsIfaceL body
  | TsNode.paramDecl _ => true
  | TsNode.otherNode ch => noPropsIfaceL ch

/-- List version of `noPropsIfaceN`. -/
def noPropsIfaceL : TsNodeList → Bool
  | TsNodeList.nil => true
  | TsNodeList.cons n rest => noPropsIfaceN n && noPropsIfaceL rest
end

mutual
/-- No interface declaration named `State` occurs in the subtree. -/
def noStateIfaceN : TsNode → Bool
  | TsNode.interfaceDecl name _ => name != "State"
  | TsNode.classDecl ch => noStateIfaceL ch
  | TsNode.propertyAccess _ ch => noStateIfaceL ch
  | TsNode.identifier _ => true
  | TsNode.thisKeyword => true
  | TsNode.superKeyword => true
  | TsNode.callExpr _ ch => noStateIfaceL ch
  | TsNode.ctorDecl _ body => noStateIfaceL body
  | TsNode.methodDecl _ _ body => noStateIfaceL body
  | TsNode.paramDecl _ => true
  | TsNode.otherNode ch => noStateIfaceL ch

/-- List version of `noStateIfaceN`. -/
def noStateIfaceL : TsNodeList → Bool
  | TsNodeList.nil => true
  | TsNodeList.cons n rest => noStateIfaceN n && noStateIfaceL rest
end

/-!
Scenario files for the claims. Each models the parsed syntax tree of a
concrete TSX file, with the spans of the interesting declarations left as
parameters.
-/

/-- The canonical member access `this.props.a`: the outer property-access
node, its inner `this.props` access, and the name identifiers, exactly as
the TypeScript parser nests them. -/
def thisPropsRead (member : String) : TsNode :=
  TsNode.propertyAccess ("this.props." ++ member) (nlist [
    TsNode.propertyAccess "this.props" (nlist [
      TsNode.thisKeyword, TsNode.identifier "props"]),
    TsNode.identifier member])

/-- The bare canonical expression `this.props`. -/
def thisPropsBare : TsNode :=
  TsNode.propertyAccess "this.props" (nlist [
    TsNode.thisKeyword, TsNode.identifier "props"])

/-- An aliased member access `alias.member`. -/
def aliasRead (a member : String) : TsNode :=
  TsNode.propertyAccess (a ++ "." ++ member) (nlist [
    TsNode.identifier a, TsNode.identifier member])

/-- Claim 1 file: `interface Props { a; b; }` and a JSX class whose render
method reads `this.props.a` and nothing else. -/
def file1 (sa wa sb wb : Nat) : SourceFile :=
  SourceFile.mk LanguageVariant.jsx (nlist [
    TsNode.interfaceDecl "Props"
      [TypeElement.mk (some "a") (Span.mk sa wa),
       TypeElement.mk (some "b") (Span.mk sb wb)],
    TsNode.classDecl (nlist [
      TsNode.methodDecl "render" [] (nlist [thisPropsRead "a"])])])

/-- Claim 2, first scenario: a method that passes the whole `this.props` to
an ordinary call `foo(this.props)`. -/
def escCallMethod : TsNode :=
  TsNode.methodDecl "render" [] (nlist [
    TsNode.callExpr "foo" (nlist [TsNode.identifier "foo", thisPropsBare])])

/-- Claim 2, second scenario: a constructor that forwards the whole
`this.props` to the superclass constructor, `super(this.props)`. -/
def escSuperCtor : TsNode :=
  TsNode.ctorDecl [Param.mk (some "props")] (nlist [
    TsNode.callExpr "super" (nlist [TsNode.superKeyword, thisPropsBare])])

/-- Claim 2 file: `Props` with arbitrary members, a class whose first member
escapes `this.props` into a call, plus arbitrary further class members. -/
def fileEscapeCall (members : List TypeElement) (rest : TsNodeList) : SourceFile :=
  SourceFile.mk LanguageVariant.jsx (nlist [
    TsNode.interfaceDecl "Props" members,
    TsNode.classDecl (TsNodeList.cons escCallMethod rest)])

/-- Claim 2 file, super-call variant. -/
def fileEscapeSuper (members : List TypeElement) (rest : TsNodeList) : SourceFile :=
  SourceFile.mk LanguageVariant.jsx (nlist [
    TsNode.interfaceDecl "Props" members,
    TsNode.classDecl (TsNodeList.cons escSuperCtor rest)])

/-- Claim 3 file, aliased form: `interface Props { x; y; }` and a class whose
constructor binds `myProps` and reads `myProps.x` only. -/
def file3Alias (sx wx sy wy : Nat) : SourceFile :=
  SourceFile.mk LanguageVariant.jsx (nlist [
    TsNode.interfaceDecl "Props"
      [TypeElement.mk (some "x") (Span.mk sx wx),
       TypeElement.mk (some "y") (Span.mk sy wy)],
    TsNode.classDecl (nlist [
      TsNode.ctorDecl [Param.mk (some "myProps")] (nlist [aliasRead "myProps" "x"])])])

/-- Claim 3 file, canonical form: same as `file3Alias` but the constructor
body reads `this.props.x` instead of `myProps.x`. -/
def file3Canonical (sx wx sy wy : Nat) : SourceFile :=
  SourceFile.mk LanguageVariant.jsx (nlist [
    TsNode.interfaceDecl "Props"
      [TypeElement.mk (some "x") (Span.mk sx wx),
       TypeElement.mk (some "y") (Span.mk sy wy)],
    TsNode.classDecl (nlist [
      TsNode.ctorDecl [Param.mk (some "myProps")] (nlist [thisPropsRead "x"])])])

/-- Claim 4, props alias forwarded to the superclass constructor:
`interface Props { x; }`, `constructor(p) { super(p); }`. -/
def file4PropsSuper (sx wx : Nat) : SourceFile :=
  SourceFile.mk LanguageVariant.jsx (nlist [
    TsNode.interfaceDecl "Props" [TypeElement.mk (some "x") (Span.mk sx wx)],
    TsNode.classDecl (nlist [
      TsNode.ctorDecl [Param.mk (some "p")] (nlist [
        TsNode.callExpr "super" (nlist [
          TsNode.superKeyword, TsNode.identifier "p"])])])])

/-- Claim 4, props alias passed to an ordinary call:
`constructor(p) { doSomething(p); }`. -/
def file4PropsCall (sx wx : Nat) : SourceFile :=
  SourceFile.mk LanguageVariant.jsx (nlist [
    TsNode.interfaceDecl "Props" [TypeElement.mk (some "x") (Span.mk sx wx)],
    TsNode.classDecl (nlist [
      TsNode.ctorDecl [Param.mk (some "p")] (nlist [
        TsNode.callExpr "doSomething" (nlist [
          TsNode.identifier "doSomething", TsNode.identifier "p"])])])])

/-- Claim 4, state alias forwarded to the superclass constructor:
`interface State { y; }`, `componentDidUpdate(pp, ps) { super(ps); }`. -/
def file4StateSuper (sy wy : Nat) : SourceFile :=
  SourceFile.mk LanguageVariant.jsx (nlist [
    TsNode.interfaceDecl "State" [TypeElement.mk (some "y") (Span.mk sy wy)],
    TsNode.classDecl (nlist [
      TsNode.methodDecl "componentDidUpdate"
        [Param.mk (some "pp"), Param.mk (some "ps")] (nlist [
        TsNode.callExpr "super" (nlist [
          TsNode.superKeyword, TsNode.identifier "ps"])])])])

/-- Claim 4, state alias passed to an ordinary call:
`componentDidUpdate(pp, ps) { doSomething(ps); }`. -/
def file4StateCall (sy wy : Nat) : SourceFile :=
  SourceFile.mk LanguageVariant.jsx (nlist [
    TsNode.interfaceDecl "State" [TypeElement.mk (some "y") (Span.mk sy wy)],
    TsNode.classDecl (nlist [
      TsNode.methodDecl "componentDidUpdate"
        [Param.mk (some "pp"), Param.mk (some "ps")] (nlist [
        TsNode.callExpr "doSomething" (nlist [
          TsNode.identifier "doSomething", TsNode.identifier "ps"])])])])

/-- Claim 5 file: `interface State { y; }` and a method named `name` with
parameters `(prevProps, prevState)` whose body reads `prevState.y`. -/
def file5 (name : String) (sy wy : Nat) : SourceFile :=
  SourceFile.mk LanguageVariant.jsx (nlist [
    TsNode.interfaceDecl "State" [TypeElement.mk (some "y") (Span.mk sy wy)],
    TsNode.classDecl (nlist [
      TsNode.methodDecl name
        [Param.mk (some "prevProps"), Param.mk (some "prevState")] (nlist [
        aliasRead "prevState" "y"])])])

/-- Claim 5, props-alias side: `interface Props { x; }` and
`componentWillReceiveProps(nextProps)` reading `nextProps.x`. -/
def file5Props (sx wx : Nat) : SourceFile :=
  SourceFile.mk LanguageVariant.jsx (nlist [
    TsNode.interfaceDecl "Props" [TypeElement.mk (some "x") (Span.mk sx wx)],
    TsNode.classDecl (nlist [
      TsNode.methodDecl "componentWillReceiveProps"
        [Param.mk (some "nextProps")] (nlist [aliasRead "nextProps" "x"])])])

/-- Claim 7 counterexample file: `interface Props { a; b; }`, then a
top-level statement `this.props.a;`, then `interface Props { a; b; }`
again. The top-level read is visited during the phase-1 file walk, before
the second declaration is collected. -/
def file7 : SourceFile :=
  SourceFile.mk LanguageVariant.jsx (nlist [
    TsNode.interfaceDecl "Props"
      [TypeElement.mk (some "a") (Span.mk 1 2),
       TypeElement.mk (some "b") (Span.mk 3 4)],
    TsNode.otherNode (nlist [thisPropsRead "a"]),
    TsNode.interfaceDecl "Props"
      [TypeElement.mk (some "a") (Span.mk 5 6),
       TypeElement.mk (some "b") (Span.mk 7 8)]])

/-- The phase-1 prefix of `file7` up to (not including) the second `Props`
declaration. -/
def file7Prefix : TsNodeList :=
  nlist [
    TsNode.interfaceDecl "Props"
      [TypeElement.mk (some "a") (Span.mk 1 2),
       TypeElement.mk (some "b") (Span.mk 3 4)],
    TsNode.otherNode (nlist [thisPropsRead "a"])]

/-- Claim 8 end-to-end file: `interface Props { only1; }` then
`interface Props { only2; }`, and no class. -/
def file8 : SourceFile :=
  SourceFile.mk LanguageVariant.jsx (nlist [
    TsNode.interfaceDecl "Props" [TypeElement.mk (some "only1") (Span.mk 1 2)],
    TsNode.interfaceDecl "Props" [TypeElement.mk (some "only2") (Span.mk 5 6)]])

/-- Claim 9 file: `interface Props { x; }` and a constructor whose only
parameter is a destructuring pattern (no simple identifier name), with a
body that reads `d.x` through a name that is not the (unset) alias. -/
def file9 (sx wx : Nat) : SourceFile :=
  SourceFile.mk LanguageVariant.jsx (nlist [
    TsNode.interfaceDecl "Props" [TypeElement.mk (some "x") (Span.mk sx wx)],
    TsNode.classDecl (nlist [
      TsNode.ctorDecl [Param.mk none] (nlist [aliasRead "d" "x"])])])

/-- Claim 9, nameless-member file: `Props` declares a member with no simple
name (e.g. an index signature) next to `x`, and no class uses anything. -/
def file9b (s0 w0 sx wx : Nat) : SourceFile :=
  SourceFile.mk LanguageVariant.jsx (nlist [
    TsNode.interfaceDecl "Props"
      [TypeElement.mk none (Span.mk s0 w0),
       TypeElement.mk (some "x") (Span.mk sx wx)]])

/-- Claim 10, shadowed alias member read: `interface Props { x; y; }`,
`constructor(data)` whose body contains a function expression with its own
parameter `data` reading `data.x` — a different binding with the same
text. -/
def file10Read (sx wx sy wy : Nat) : SourceFile :=
  SourceFile.mk LanguageVariant.jsx (nlist [
    TsNode.interfaceDecl "Props"
      [TypeElement.mk (some "x") (Span.mk sx wx),
       TypeElement.mk (some "y") (Span.mk sy wy)],
    TsNode.classDecl (nlist [
      TsNode.ctorDecl [Param.mk (some "data")] (nlist [
        TsNode.otherNode (nlist [
          TsNode.paramDecl (Param.mk (some "data")),
          aliasRead "data" "x"])])])])

/-- Claim 10, shadowed alias standalone occurrence: `interface Props { x; }`,
`constructor(data)` whose body declares a new `data` (`const data = 1`) and
passes that different `data` to `use(data)`. -/
def file10Clear (sx wx : Nat) : SourceFile :=
  SourceFile.mk LanguageVariant.jsx (nlist [
    TsNode.interfaceDecl "Props" [TypeElement.mk (some "x") (Span.mk sx wx)],
    TsNode.classDecl (nlist [
      TsNode.ctorDecl [Param.mk (some "data")] (nlist [
        TsNode.otherNode (nlist [
          TsNode.otherNode (nlist [TsNode.identifier "data"]),
          TsNode.callExpr "use" (nlist [
            TsNode.identifier "use", TsNode.identifier "data"])])])])])

/-- Claim 10, state-alias side: `interface State { y; z; }` and
`componentDidUpdate(pp, ps)` whose body has an inner function shadowing `ps`
and reading `ps.y`. -/
def file10State (sy wy sz wz : Nat) : SourceFile :=
  SourceFile.mk LanguageVariant.jsx (nlist [
    TsNode.interfaceDecl "State"
      [TypeElement.mk (some "y") (Span.mk sy wy),
       TypeElement.mk (some "z") (Span.mk sz wz)],
    TsNode.classDecl (nlist [
      TsNode.methodDecl "componentDidUpdate"
        [Param.mk (some "pp"), Param.mk (some "ps")] (nlist [
        TsNode.otherNode (nlist [
          TsNode.paramDecl (Param.mk (some "ps")),
          aliasRead "ps" "y"])])])])

/-- The bare canonical expression `this.state`. -/
def thisStateBare : TsNode :=
  TsNode.propertyAccess "this.state" (nlist [
    TsNode.thisKeyword, TsNode.identifier "state"])

/-- Claim 2, state side: a method that passes the whole `this.state` to an
ordinary call `foo(this.state)`. -/
def escStateMethod : TsNode :=
  TsNode.methodDecl "render" [] (nlist [
    TsNode.callExpr "foo" (nlist [TsNode.identifier "foo", thisStateBare])])

/-- Claim 2 file, state variant: `State` with arbitrary members and a class
whose first member escapes `this.state` into a call. -/
def fileEscapeState (members : List TypeElement) (rest : TsNodeList) : SourceFile :=
  SourceFile.mk LanguageVariant.jsx (nlist [
    TsNode.interfaceDecl "State" members,
    TsNode.classDecl (TsNodeList.cons escStateMethod rest)])

/-- A sample walker state tracking one Props member, used to instantiate
general theorems. -/
def sampleTrackingState : WalkerState :=
  WalkerState.mk ["a"] [("a", TypeElement.mk (some "a") (Span.mk 0 1))]
    ["b"] [("b", TypeElement.mk (some "b") (Span.mk 2 3))] [] none none

/-!
Helper lemmas.
-/

/-- `visitIdentifier` does nothing when no alias is bound. -/
theorem visitIdentifierCore_no_alias (pc : ParentCtx) (t : String) (s : WalkerState)
    (hp : s.propsAlias = none) (hs : s.stateAlias = none) :
    visitIdentifierCore pc t s = s := by
  simp only [visitIdentifierCore, hp, hs]

/-- Walking interface members does nothing when no alias is bound. -/
theorem visitTypeMembers_no_alias (ms : List TypeElement) (s : WalkerState)
    (hp : s.propsAlias = none) (hs : s.stateAlias = none) :
    visitTypeMembers ms s = s := by
  induction ms with
  | nil => rfl
  | cons te rest ih =>
    have hstep : (match te.name with
        | some n => visitIdentifierCore (ParentCtx.mk SynKind.otherKind none) n s
        | none => s) = s := by
      cases te.name with
      | some n => exact visitIdentifierCore_no_alias _ _ _ hp hs
      | none => rfl
    rw [visitTypeMembers, hstep]
    exact ih

/-- If the Props unused set is already empty at reporting time, the rule's
output is exactly the State-derived findings. -/
theorem applyRule_of_propNames_nil (f : SourceFile)
    (hv : f.languageVariant = LanguageVariant.jsx)
    (h : (runWalker f).propNames = []) :
    applyRule f = stateFailures (runWalker f) := by
  unfold applyRule failuresOf propFailures
  rw [hv, h]
  simp [show (LanguageVariant.jsx == LanguageVariant.jsx) = true from rfl]

/-- `paeCanonical` never grows the Props unused set. -/
theorem paeCanonical_prop_sub (t : String) (s : WalkerState) :
    List.Sublist (paeCanonical t s).propNames s.propNames := by
  unfold paeCanonical utilsRemove
  split
  · exact List.filter_sublist _
  · split
    · exact List.Sublist.refl _
    · exact List.Sublist.refl _

/-- `paeCanonical` never grows the State unused set. -/
theorem paeCanonical_state_sub (t : String) (s : WalkerState) :
    List.Sublist (paeCanonical t s).stateNames s.stateNames := by
  unfold paeCanonical utilsRemove
  split
  · exact List.Sublist.refl _
  · split
    · exact List.filter_sublist _
    · exact List.Sublist.refl _

/-- `paePropsAlias` never grows the Props unused set. -/
theorem paePropsAlias_prop_sub (t : String) (s : WalkerState) :
    List.Sublist (paePropsAlias t s).propNames s.propNames := by
  cases h1 : s.propsAlias with
  | none => simp only [paePropsAlias, h1]; exact List.Sublist.refl _
  | some a =>
    simp only [paePropsAlias, h1, utilsRemove]
    split
    · exact List.filter_sublist _
    · exact List.Sublist.refl _

/-- `paePropsAlias` leaves the State unused set unchanged. -/
theorem paePropsAlias_stateNames (t : String) (s : WalkerState) :
    (paePropsAlias t s).stateNames = s.stateNames := by
  unfold paePropsAlias
  split <;> (try split) <;> rfl

/-- `paeStateAlias` leaves the Props unused set unchanged. -/
theorem paeStateAlias_propNames (t : String) (s : WalkerState) :
    (paeStateAlias t s).propNames = s.propNames := by
  unfold paeStateAlias
  split <;> (try split) <;> rfl

/-- `paeStateAlias` never grows the State unused set. -/
theorem paeStateAlias_state_sub (t : String) (s : WalkerState) :
    List.Sublist (paeStateAlias t s).stateNames s.stateNames := by
  cases h1 : s.stateAlias with
  | none => simp only [paeStateAlias, h1]; exact List.Sublist.refl _
  | some a =>
    simp only [paeStateAlias, h1, utilsRemove]
    split
    · exact List.filter_sublist _
    · exact List.Sublist.refl _

/-- `paeEscape` never grows the Props unused set. -/
theorem paeEscape_prop_sub (pc : ParentCtx) (t : String) (s : WalkerState) :
    List.Sublist (paeEscape pc t s).propNames s.propNames := by
  unfold paeEscape
  split <;> (try split) <;> (try split) <;>
    first
    | exact List.nil_sublist _
    | exact List.Sublist.refl _

/-- `paeEscape` never grows the State unused set. -/
theorem paeEscape_state_sub (pc : ParentCtx) (t : String) (s : WalkerState) :
    List.Sublist (paeEscape pc t s).stateNames s.stateNames := by
  unfold paeEscape
  split <;> (try split) <;> (try split) <;>
    first
    | exact List.nil_sublist _
    | exact List.Sublist.refl _

/-- `paeUpdate` never grows the Props unused set. -/
theorem paeUpdate_prop_sub (pc : ParentCtx) (t : String) (s : WalkerState) :
    List.Sublist (paeUpdate pc t s).propNames s.propNames := by
  unfold paeUpdate
  refine List.Sublist.trans (paeEscape_prop_sub _ _ _) ?_
  rw [paeStateAlias_propNames]
  exact List.Sublist.trans (paePropsAlias_prop_sub _ _) (paeCanonical_prop_sub _ _)

/-- `paeUpdate` never grows the State unused set. -/
theorem paeUpdate_state_sub (pc : ParentCtx) (t : String) (s : WalkerState) :
    List.Sublist (paeUpdate pc t s).stateNames s.stateNames := by
  unfold paeUpdate
  refine List.Sublist.trans (paeEscape_state_sub _ _ _) ?_
  refine List.Sublist.trans (paeStateAlias_state_sub _ _) ?_
  rw [paePropsAlias_stateNames]
  exact paeCanonical_state_sub _ _

/-- `visitIdentifier` never grows the Props unused set. -/
theorem visitIdentifierCore_prop_sub (pc : ParentCtx) (t : String) (s : WalkerState) :
    List.Sublist (visitIdentifierCore pc t s).propNames s.propNames := by
  unfold visitIdentifierCore
  cases h1 : s.propsAlias <;> cases h2 : s.stateAlias <;>
    simp only [h1, h2] <;> (repeat' split) <;>
    first
    | exact List.nil_sublist _
    | exact List.Sublist.refl _

/-- `visitIdentifier` never grows the State unused set. -/
theorem visitIdentifierCore_state_sub (pc : ParentCtx) (t : String) (s : WalkerState) :
    List.Sublist (visitIdentifierCore pc t s).stateNames s.stateNames := by
  unfold visitIdentifierCore
  cases h1 : s.propsAlias <;> cases h2 : s.stateAlias <;>
    simp only [h1, h2] <;> (repeat' split) <;>
    first
    | exact List.nil_sublist _
    | exact List.Sublist.refl _

/-- Walking interface members never grows the Props unused set. -/
theorem visitTypeMembers_prop_sub (ms : List TypeElement) (s : WalkerState) :
    List.Sublist (visitTypeMembers ms s).propNames s.propNames := by
  induction ms generalizing s with
  | nil => exact List.Sublist.refl _
  | cons te rest ih =>
    rw [visitTypeMembers]
    refine List.Sublist.trans (ih _) ?_
    cases te.name with
    | some n => exact visitIdentifierCore_prop_sub _ _ _
    | none => exact List.Sublist.refl _

/-- Walking interface members never grows the State unused set. -/
theorem visitTypeMembers_state_sub (ms : List TypeElement) (s : WalkerState) :
    List.Sublist (visitTypeMembers ms s).stateNames s.stateNames := by
  induction ms generalizing s with
  | nil => exact List.Sublist.refl _
  | cons te rest ih =>
    rw [visitTypeMembers]
    refine List.Sublist.trans (ih _) ?_
    cases te.name with
    | some n => exact visitIdentifierCore_state_sub _ _ _
    | none => exact List.Sublist.refl _

/-- Walking parameter declarations never grows the Props unused set. -/
theorem visitParams_prop_sub (ps : List Param) (s : WalkerState) :
    List.Sublist (visitParams ps s).propNames s.propNames := by
  induction ps generalizing s with
  | nil => exact List.Sublist.refl _
  | cons p rest ih =>
    rw [visitParams]
    refine List.Sublist.trans (ih _) ?_
    cases p.name with
    | some n => exact visitIdentifierCore_prop_sub _ _ _
    | none => exact List.Sublist.refl _

/-- Walking parameter declarations never grows the State unused set. -/
theorem visitParams_state_sub (ps : List Param) (s : WalkerState) :
    List.Sublist (visitParams ps s).stateNames s.stateNames := by
  induction ps generalizing s with
  | nil => exact List.Sublist.refl _
  | cons p rest ih =>
    rw [visitParams]
    refine List.Sublist.trans (ih _) ?_
    cases p.name with
    | some n => exact visitIdentifierCore_state_sub _ _ _
    | none => exact List.Sublist.refl _

/-- `ctorEnter` touches only the props alias. -/
theorem ctorEnter_propNames (ps : List Param) (s : WalkerState) :
    (ctorEnter ps s).propNames = s.propNames := by
  cases ps <;> rfl

/-- `ctorEnter` touches only the props alias. -/
theorem ctorEnter_stateNames (ps : List Param) (s : WalkerState) :
    (ctorEnter ps s).stateNames = s.stateNames := by
  cases ps <;> rfl

/-- `methodEnter` touches only the aliases. -/
theorem methodEnter_propNames (name : String) (ps : List Param) (s : WalkerState) :
    (methodEnter name ps s).propNames = s.propNames := by
  unfold methodEnter
  split <;> (try split) <;> (try split) <;> (try split) <;> rfl

/-- `methodEnter` touches only the aliases. -/
theorem methodEnter_stateNames (name : String) (ps : List Param) (s : WalkerState) :
    (methodEnter name ps s).stateNames = s.stateNames := by
  unfold methodEnter
  split <;> (try split) <;> (try split) <;> (try split) <;> rfl

/-- An interface declaration not named `Props` leaves the Props unused set
unchanged. -/
theorem interfaceEnter_propNames (name : String) (ms : List TypeElement) (s : WalkerState)
    (h : (name == "Props") = false) :
    (interfaceEnter name ms s).propNames = s.propNames := by
  unfold interfaceEnter
  rw [h]
  split <;> (try split) <;>
    first
    | rfl
    | simp_all

/-- An interface declaration not named `State` leaves the State unused set
unchanged. -/
theorem interfaceEnter_stateNames (name : String) (ms : List TypeElement) (s : WalkerState)
    (h : (name == "State") = false) :
    (interfaceEnter name ms s).stateNames = s.stateNames := by
  unfold interfaceEnter
  rw [h]
  split <;> (try split) <;>
    first
    | rfl
    | simp_all

mutual
/-- As long as a subtree declares no `Props` interface, walking it only
shrinks the Props unused set. -/
theorem visitNode_prop_sub (pc : ParentCtx) (s : WalkerState) (n : TsNode)
    (h : noPropsIfaceN n = true) :
    List.Sublist (visitNode pc s n).propNames s.propNames := by
  cases n with
  | interfaceDecl name members =>
    show List.Sublist (visitTypeMembers members (interfaceEnter name members s)).propNames _
    have hb : (name == "Props") = false := by
      have hn : (name != "Props") = true := h
      simpa using hn
    rw [show s.propNames = (interfaceEnter name members s).propNames from
      (interfaceEnter_propNames name members s hb).symm]
    exact visitTypeMembers_prop_sub _ _
  | classDecl children => exact List.Sublist.refl _
  | propertyAccess text children =>
    refine List.Sublist.trans
      (visitList_prop_sub _ _ children (by simpa [noPropsIfaceN] using h)) ?_
    exact paeUpdate_prop_sub _ _ _
  | identifier text => exact visitIdentifierCore_prop_sub _ _ _
  | thisKeyword => exact List.Sublist.refl _
  | superKeyword => exact List.Sublist.refl _
  | callExpr calleeText children =>
    exact visitList_prop_sub _ _ children (by simpa [noPropsIfaceN] using h)
  | ctorDecl params body =>
    show List.Sublist (visitList (ParentCtx.mk SynKind.constructorDeclarationKind none)
      (visitParams params (ctorEnter params s)) body).propNames _
    refine List.Sublist.trans
      (visitList_prop_sub _ _ body (by simpa [noPropsIfaceN] using h)) ?_
    refine List.Sublist.trans (visitParams_prop_sub _ _) ?_
    rw [ctorEnter_propNames]
  | methodDecl name params body =>
    show List.Sublist (visitList (ParentCtx.mk SynKind.methodDeclarationKind none)
      (visitParams params (methodEnter name params s)) body).propNames _
    refine List.Sublist.trans
      (visitList_prop_sub _ _ body (by simpa [noPropsIfaceN] using h)) ?_
    refine List.Sublist.trans (visitParams_prop_sub _ _) ?_
    rw [methodEnter_propNames]
  | paramDecl p => exact visitParams_prop_sub _ _
  | otherNode children =>
    exact visitList_prop_sub _ _ children (by simpa [noPropsIfaceN] using h)

/-- List version of `visitNode_prop_sub`. -/
theorem visitList_prop_sub (pc : ParentCtx) (s : WalkerState) (l : TsNodeList)
    (h : noPropsIfaceL l = true) :
    List.Sublist (visitList pc s l).propNames s.propNames := by
  cases l with
  | nil => exact List.Sublist.refl _
  | cons n rest =>
    have hn : noPropsIfaceN n = true ∧ noPropsIfaceL rest = true := by
      simpa [noPropsIfaceL, Bool.and_eq_true] using h
    exact List.Sublist.trans (visitList_prop_sub pc _ rest hn.2)
      (visitNode_prop_sub pc s n hn.1)
end

mutual
/-- As long as a subtree declares no `State` interface, walking it only
shrinks the State unused set. -/
theorem visitNode_state_sub (pc : ParentCtx) (s : WalkerState) (n : TsNode)
    (h : noStateIfaceN n = true) :
    List.Sublist (visitNode pc s n).stateNames s.stateNames := by
  cases n with
  | interfaceDecl name members =>
    show List.Sublist (visitTypeMembers members (interfaceEnter name members s)).stateNames _
    have hb : (name == "State") = false := by
      have hn : (name != "State") = true := h
      simpa using hn
    rw [show s.stateNames = (interfaceEnter name members s).stateNames from
      (interfaceEnter_stateNames name members s hb).symm]
    exact visitTypeMembers_state_sub _ _
  | classDecl children => exact List.Sublist.refl _
  | propertyAccess text children =>
    refine List.Sublist.trans
      (visitList_state_sub _ _ children (by simpa [noStateIfaceN] using h)) ?_
    exact paeUpdate_state_sub _ _ _
  | identifier text => exact visitIdentifierCore_state_sub _ _ _
  | thisKeyword => exact List.Sublist.refl _
  | superKeyword => exact List.Sublist.refl _
  | callExpr calleeText children =>
    exact visitList_state_sub _ _ children (by simpa [noStateIfaceN] using h)
  | ctorDecl params body =>
    show List.Sublist (visitList (ParentCtx.mk SynKind.constructorDeclarationKind none)
      (visitParams params (ctorEnter params s)) body).stateNames _
    refine List.Sublist.trans
      (visitList_state_sub _ _ body (by simpa [noStateIfaceN] using h)) ?_
    refine List.Sublist.trans (visitParams_state_sub _ _) ?_
    rw [ctorEnter_stateNames]
  | methodDecl name params body =>
    show List.Sublist (visitList (ParentCtx.mk SynKind.methodDeclarationKind none)
      (visitParams params (methodEnter name params s)) body).stateNames _
    refine List.Sublist.trans
      (visitList_state_sub _ _ body (by simpa [noStateIfaceN] using h)) ?_
    refine List.Sublist.trans (visitParams_state_sub _ _) ?_
    rw [methodEnter_stateNames]
  | paramDecl p => exact visitParams_state_sub _ _
  | otherNode children =>
    exact visitList_state_sub _ _ children (by simpa [noStateIfaceN] using h)

/-- List version of `visitNode_state_sub`. -/
theorem visitList_state_sub (pc : ParentCtx) (s : WalkerState) (l : TsNodeList)
    (h : noStateIfaceL l = true) :
    List.Sublist (visitList pc s l).stateNames s.stateNames := by
  cases l with
  | nil => exact List.Sublist.refl _
  | cons n rest =>
    have hn : noStateIfaceN n = true ∧ noStateIfaceL rest = true := by
      simpa [noStateIfaceL, Bool.and_eq_true] using h
    exact List.Sublist.trans (visitList_state_sub pc _ rest hn.2)
      (visitNode_state_sub pc s n hn.1)
end

/-- An empty Props unused set stays empty across any walk of nodes that
declare no `Props` interface. -/
theorem visitList_propNames_nil (pc : ParentCtx) (s : WalkerState) (l : TsNodeList)
    (h : noPropsIfaceL l = true) (h0 : s.propNames = []) :
    (visitList pc s l).propNames = [] := by
  have hsub := visitList_prop_sub pc s l h
  rw [h0] at hsub
  exact List.sublist_nil.mp hsub

/-- If walking the first member of the single queued class already clears
the Props unused set, and no later class member re-declares `Props`, phase 2
ends with an empty Props unused set. -/
theorem phase2_escape (K : List String) (D : NodeMap) (esc : TsNode) (rest : TsNodeList)
    (hR : noPropsIfaceL rest = true)
    (hesc : visitNode classCtx
        (WalkerState.mk K D [] [] [TsNodeList.cons esc rest] none none) esc
      = WalkerState.mk [] D [] [] [TsNodeList.cons esc rest] none none) :
    (phase2 (WalkerState.mk K D [] [] [TsNodeList.cons esc rest] none none)).propNames
      = [] := by
  cases K with
  | nil => rfl
  | cons k ks =>
    unfold phase2
    rw [if_pos (by simp)]
    show (visitList classCtx
      (visitNode classCtx (WalkerState.mk (k :: ks) D [] [] [TsNodeList.cons esc rest] none none) esc)
      rest).propNames = []
    rw [hesc]
    exact visitList_propNames_nil _ _ _ hR rfl

/-- Phase 1 of the claim-2 files: collect `Props`, queue the class. -/
theorem escape_phase1 (members : List TypeElement) (cls : TsNodeList) :
    visitList topCtx initialState
      (TsNodeList.cons (TsNode.interfaceDecl "Props" members)
        (TsNodeList.cons (TsNode.classDecl cls) TsNodeList.nil))
    = WalkerState.mk (mapKeys (typeElementData members)) (typeElementData members)
        [] [] [cls] none none := by
  have hIface : visitNode topCtx initialState (TsNode.interfaceDecl "Props" members)
      = WalkerState.mk (mapKeys (typeElementData members)) (typeElementData members)
          [] [] [] none none := by
    show visitTypeMembers members (interfaceEnter "Props" members initialState) = _
    rw [show interfaceEnter "Props" members initialState
        = WalkerState.mk (mapKeys (typeElementData members)) (typeElementData members)
            [] [] [] none none from rfl]
    exact visitTypeMembers_no_alias members _ rfl rfl
  show visitList topCtx (visitNode topCtx initialState (TsNode.interfaceDecl "Props" members))
      (TsNodeList.cons (TsNode.classDecl cls) TsNodeList.nil) = _
  rw [hIface]
  rfl

/-- The Props unused set is empty after running on the call-escape file. -/
theorem runWalker_escape_call (members : List TypeElement) (rest : TsNodeList)
    (hR : noPropsIfaceL rest = true) :
    (runWalker (fileEscapeCall members rest)).propNames = [] := by
  show (phase2 (visitList topCtx initialState (fileEscapeCall members rest).statements)).propNames = []
  rw [show (fileEscapeCall members rest).statements
      = TsNodeList.cons (TsNode.interfaceDecl "Props" members)
          (TsNodeList.cons (TsNode.classDecl (TsNodeList.cons escCallMethod rest))
            TsNodeList.nil) from rfl]
  rw [escape_phase1 members (TsNodeList.cons escCallMethod rest)]
  exact phase2_escape _ _ _ _ hR rfl

/-- The Props unused set is empty after running on the super-escape file. -/
theorem runWalker_escape_super (members : List TypeElement) (rest : TsNodeList)
    (hR : noPropsIfaceL rest = true) :
    (runWalker (fileEscapeSuper members rest)).propNames = [] := by
  show (phase2 (visitList topCtx initialState (fileEscapeSuper members rest).statements)).propNames = []
  rw [show (fileEscapeSuper members rest).statements
      = TsNodeList.cons (TsNode.interfaceDecl "Props" members)
          (TsNodeList.cons (TsNode.classDecl (TsNodeList.cons escSuperCtor rest))
            TsNodeList.nil) from rfl]
  rw [escape_phase1 members (TsNodeList.cons escSuperCtor rest)]
  exact phase2_escape _ _ _ _ hR rfl

/-- An empty State unused set stays empty across any walk of nodes that
declare no `State` interface. -/
theorem visitList_stateNames_nil (pc : ParentCtx) (s : WalkerState) (l : TsNodeList)
    (h : noStateIfaceL l = true) (h0 : s.stateNames = []) :
    (visitList pc s l).stateNames = [] := by
  have hsub := visitList_state_sub pc s l h
  rw [h0] at hsub
  exact List.sublist_nil.mp hsub

/-- If the State unused set is already empty at reporting time, the rule's
output is exactly the Props-derived findings. -/
theorem applyRule_of_stateNames_nil (f : SourceFile)
    (hv : f.languageVariant = LanguageVariant.jsx)
    (h : (runWalker f).stateNames = []) :
    applyRule f = propFailures (runWalker f) := by
  unfold applyRule failuresOf stateFailures
  rw [hv, h]
  simp [show (LanguageVariant.jsx == LanguageVariant.jsx) = true from rfl]

/-- State analogue of `phase2_escape`. -/
theorem phase2_escape_state (K : List String) (D : NodeMap) (esc : TsNode) (rest : TsNodeList)
    (hR : noStateIfaceL rest = true)
    (hesc : visitNode classCtx
        (WalkerState.mk [] [] K D [TsNodeList.cons esc rest] none none) esc
      = WalkerState.mk [] [] [] D [TsNodeList.cons esc rest] none none) :
    (phase2 (WalkerState.mk [] [] K D [TsNodeList.cons esc rest] none none)).stateNames
      = [] := by
  cases K with
  | nil => rfl
  | cons k ks =>
    unfold phase2
    rw [if_pos (by simp)]
    show (visitList classCtx
      (visitNode classCtx (WalkerState.mk [] [] (k :: ks) D [TsNodeList.cons esc rest] none none) esc)
      rest).stateNames = []
    rw [hesc]
    exact visitList_stateNames_nil _ _ _ hR rfl

/-- Phase 1 of the claim-2 state file: collect `State`, queue the class. -/
theorem escape_phase1_state (members : List TypeElement) (cls : TsNodeList) :
    visitList topCtx initialState
      (TsNodeList.cons (TsNode.interfaceDecl "State" members)
        (TsNodeList.cons (TsNode.classDecl cls) TsNodeList.nil))
    = WalkerState.mk [] [] (mapKeys (typeElementData members)) (typeElementData members)
        [cls] none none := by
  have hIface : visitNode topCtx initialState (TsNode.interfaceDecl "State" members)
      = WalkerState.mk [] [] (mapKeys (typeElementData members)) (typeElementData members)
          [] none none := by
    show visitTypeMembers members (interfaceEnter "State" members initialState) = _
    rw [show interfaceEnter "State" members initialState
        = WalkerState.mk [] [] (mapKeys (typeElementData members)) (typeElementData members)
            [] none none from rfl]
    exact visitTypeMembers_no_alias members _ rfl rfl
  show visitList topCtx (visitNode topCtx initialState (TsNode.interfaceDecl "State" members))
      (TsNodeList.cons (TsNode.classDecl cls) TsNodeList.nil) = _
  rw [hIface]
  rfl

/-- The State unused set is empty after running on the state-escape file. -/
theorem runWalker_escape_state (members : List TypeElement) (rest : TsNodeList)
    (hR : noStateIfaceL rest = true) :
    (runWalker (fileEscapeState members rest)).stateNames = [] := by
  show (phase2 (visitList topCtx initialState (fileEscapeState members rest).statements)).stateNames = []
  rw [show (fileEscapeState members rest).statements
      = TsNodeList.cons (TsNode.interfaceDecl "State" members)
          (TsNodeList.cons (TsNode.classDecl (TsNodeList.cons escStateMethod rest))
            TsNodeList.nil) from rfl]
  rw [escape_phase1_state members (TsNodeList.cons escStateMethod rest)]
  exact phase2_escape_state _ _ _ _ hR rfl

/-!
The claims.
-/

/-- Claim C1: for every JSX source file in which an interface named exactly
`Props` declares members `a` and `b` (at arbitrary spans) and the class
body's only props reference is the canonical access `this.props.a`, the
rule produces exactly one finding, whose message is
"Unused React property defined in interface: b" and whose span (start,
length) is that of `b`'s declaration node in the `Props` interface. -/
theorem claim1_single_unused_prop (sa wa sb wb : Nat) :
    applyRule (file1 sa wa sb wb)
      = [Failure.mk sb wb "Unused React property defined in interface: b"] := rfl

/-- Claim C2: if the canonical expression `this.props` (resp. `this.state`)
occurs in a scanned class as a complete expression whose parent is not a
further property access — here passed whole as a call argument, including
a superclass-constructor call `super(this.props)` — the entire unused set
of that contract is cleared and the rule's output contains no finding for
that contract (it equals the other contract's findings), for any member
list and any further class members that do not re-declare the contract. -/
theorem claim2_whole_object_escape (members : List TypeElement) (rest : TsNodeList)
    (hP : noPropsIfaceL rest = true) (hS : noStateIfaceL rest = true) :
    ((runWalker (fileEscapeCall members rest)).propNames = []
      ∧ applyRule (fileEscapeCall members rest)
          = stateFailures (runWalker (fileEscapeCall members rest)))
    ∧ ((runWalker (fileEscapeSuper members rest)).propNames = []
      ∧ applyRule (fileEscapeSuper members rest)
          = stateFailures (runWalker (fileEscapeSuper members rest)))
    ∧ ((runWalker (fileEscapeState members rest)).stateNames = []
      ∧ applyRule (fileEscapeState members rest)
          = propFailures (runWalker (fileEscapeState members rest))) := by
  have h1 := runWalker_escape_call members rest hP
  have h2 := runWalker_escape_super members rest hP
  have h3 := runWalker_escape_state members rest hS
  exact ⟨⟨h1, applyRule_of_propNames_nil _ rfl h1⟩,
         ⟨h2, applyRule_of_propNames_nil _ rfl h2⟩,
         ⟨h3, applyRule_of_stateNames_nil _ rfl h3⟩⟩

/-- Witness for C2 at a concrete one-member interface and no further class
members. -/
theorem claim2_whole_object_escape_witness :
    noPropsIfaceL TsNodeList.nil = true ∧ noStateIfaceL TsNodeList.nil = true
    ∧ (((runWalker (fileEscapeCall [TypeElement.mk (some "a") (Span.mk 1 2)] TsNodeList.nil)).propNames = []
        ∧ applyRule (fileEscapeCall [TypeElement.mk (some "a") (Span.mk 1 2)] TsNodeList.nil)
            = stateFailures (runWalker (fileEscapeCall [TypeElement.mk (some "a") (Span.mk 1 2)] TsNodeList.nil)))
      ∧ ((runWalker (fileEscapeSuper [TypeElement.mk (some "a") (Span.mk 1 2)] TsNodeList.nil)).propNames = []
        ∧ applyRule (fileEscapeSuper [TypeElement.mk (some "a") (Span.mk 1 2)] TsNodeList.nil)
            = stateFailures (runWalker (fileEscapeSuper [TypeElement.mk (some "a") (Span.mk 1 2)] TsNodeList.nil)))
      ∧ ((runWalker (fileEscapeState [TypeElement.mk (some "a") (Span.mk 1 2)] TsNodeList.nil)).stateNames = []
        ∧ applyRule (fileEscapeState [TypeElement.mk (some "a") (Span.mk 1 2)] TsNodeList.nil)
            = propFailures (runWalker (fileEscapeState [TypeElement.mk (some "a") (Span.mk 1 2)] TsNodeList.nil)))) :=
  ⟨by decide, by decide,
    claim2_whole_object_escape [TypeElement.mk (some "a") (Span.mk 1 2)] TsNodeList.nil
      (by decide) (by decide)⟩

set_option maxHeartbeats 1000000 in
/-- Evaluation of the aliased-read file of claim C3. -/
theorem file3Alias_eval (sx wx sy wy : Nat) :
    applyRule (file3Alias sx wx sy wy)
      = [Failure.mk sy wy "Unused React property defined in interface: y"] := rfl

set_option maxHeartbeats 1000000 in
/-- Evaluation of the canonical-read file of claim C3. -/
theorem file3Canonical_eval (sx wx sy wy : Nat) :
    applyRule (file3Canonical sx wx sy wy)
      = [Failure.mk sy wy "Unused React property defined in interface: y"] := rfl

/-- Claim C3: a constructor with at least one parameter binds its first
parameter's name as the props alias, and a read `myProps.x` through the
alias has exactly the same effect on the final findings as the canonical
read `this.props.x`: on `Props {x; y}` both runs report exactly the one
finding for `y`. -/
theorem claim3_ctor_alias_read_equivalent (sx wx sy wy : Nat) :
    (∀ (p : Param) (ps : List Param) (s : WalkerState),
      (ctorEnter (p :: ps) s).propsAlias = p.name)
    ∧ applyRule (file3Alias sx wx sy wy) = applyRule (file3Canonical sx wx sy wy)
    ∧ applyRule (file3Alias sx wx sy wy)
        = [Failure.mk sy wy "Unused React property defined in interface: y"] :=
  ⟨fun _ _ _ => rfl,
    (file3Alias_eval sx wx sy wy).trans (file3Canonical_eval sx wx sy wy).symm,
    file3Alias_eval sx wx sy wy⟩

/-- Counterexample to claim C4: the claim's super-call exception does not
hold for the state alias. In `componentDidUpdate(pp, ps) { super(ps); }`
with `State { y }`, the state alias `ps` occurs only as an argument of the
superclass-constructor call, so per the claim the State unused set must NOT
be cleared and the finding for `y` must be reported; the code clears the
set (its state-alias branch lacks the `isParentNodeSuperCall` check) and
reports nothing. -/
theorem claim4_counterexample :
    applyRule (file4StateSuper 1 2) = []
    ∧ applyRule (file4StateSuper 1 2)
        ≠ [Failure.mk 1 2 "Unused React state defined in interface: y"] := by
  decide

/-- Claim C4 as amended: the superclass-constructor exception applies to
the props alias only. A props-alias occurrence as a `super(...)` argument
does not clear the Props unused set; a props-alias occurrence passed to any
other call clears it; a state-alias occurrence clears the State unused set
even as a `super(...)` argument, as it does for any other call. -/
theorem claim4_amended_alias_escape (sx wx sy wy : Nat) :
    applyRule (file4PropsSuper sx wx)
      = [Failure.mk sx wx "Unused React property defined in interface: x"]
    ∧ applyRule (file4PropsCall sx wx) = []
    ∧ applyRule (file4StateSuper sy wy) = []
    ∧ applyRule (file4StateCall sy wy) = [] :=
  ⟨rfl, rfl, rfl, rfl⟩

/-- Claim C5: a method whose name contains a recognized lifecycle hook as a
substring binds its first parameter as the props alias and (for the hooks
with a state argument) its second parameter as the state alias; in
particular `componentDidUpdate(prevProps, prevState)` reading `prevState.y`
removes `y` from the State unused set (no finding), also when the hook name
occurs only as a substring of the method name, and
`componentWillReceiveProps(nextProps)` reading `nextProps.x` removes `x`
from the Props unused set. -/
theorem claim5_lifecycle_alias_binding (sy wy sx wx : Nat) :
    (∀ (p q : Param) (ps : List Param) (s : WalkerState),
      (methodEnter "componentDidUpdate" (p :: q :: ps) s).propsAlias = p.name
      ∧ (methodEnter "componentDidUpdate" (p :: q :: ps) s).stateAlias = q.name)
    ∧ applyRule (file5 "componentDidUpdate" sy wy) = []
    ∧ applyRule (file5 "componentDidUpdateCustom" sy wy) = []
    ∧ applyRule (file5Props sx wx) = [] :=
  ⟨fun _ _ _ _ => ⟨rfl, rfl⟩, rfl, rfl, rfl⟩

/-- Claim C6: for every source file whose language variant is not JSX, the
rule returns an empty list of findings (without running the walker). -/
theorem claim6_non_jsx_no_findings (f : SourceFile)
    (h : f.languageVariant ≠ LanguageVariant.jsx) :
    applyRule f = [] := by
  cases f with
  | mk v stmts =>
    cases v with
    | standard => rfl
    | jsx => exact absurd rfl h

/-- Witness for C6 at a concrete non-JSX file. -/
theorem claim6_non_jsx_no_findings_witness :
    (SourceFile.mk LanguageVariant.standard TsNodeList.nil).languageVariant
        ≠ LanguageVariant.jsx
    ∧ applyRule (SourceFile.mk LanguageVariant.standard TsNodeList.nil) = [] :=
  ⟨by decide, claim6_non_jsx_no_findings _ (by decide)⟩

/-- Counterexample to claim C7: the unused sets do not only shrink across a
whole run when a second interface declaration of the same contract name
appears later in the file. In `file7`, after the first `Props {a; b}` and
the top-level read `this.props.a;` the Props unused set is `["b"]` — the
member `a` has been removed — yet the second `Props {a; b}` declaration
re-adds `a`, and the run ends reporting both `a` and `b`. -/
theorem claim7_counterexample :
    (visitList topCtx initialState file7Prefix).propNames = ["b"]
    ∧ applyRule file7
        = [Failure.mk 5 6 "Unused React property defined in interface: a",
           Failure.mk 7 8 "Unused React property defined in interface: b"] := by
  decide

/-- Claim C7 as amended: while walking any subtree that contains no further
interface declaration named `Props` (resp. `State`), the Props (resp.
State) unused set only shrinks — the result is a sublist of the incoming
set, so a member name once removed is never re-added; a re-declaration of
the contract instead replaces the set wholesale (see C8) and can re-add
removed names. -/
theorem claim7_amended_monotone_shrink (pc : ParentCtx) (s : WalkerState) (n : TsNode)
    (hp : noPropsIfaceN n = true) (hs : noStateIfaceN n = true) :
    List.Sublist (visitNode pc s n).propNames s.propNames
    ∧ List.Sublist (visitNode pc s n).stateNames s.stateNames :=
  ⟨visitNode_prop_sub pc s n hp, visitNode_state_sub pc s n hs⟩

/-- Witness for the amended C7 at a concrete state and node. -/
theorem claim7_amended_monotone_shrink_witness :
    noPropsIfaceN escCallMethod = true ∧ noStateIfaceN escCallMethod = true
    ∧ (List.Sublist (visitNode classCtx sampleTrackingState escCallMethod).propNames
          sampleTrackingState.propNames
      ∧ List.Sublist (visitNode classCtx sampleTrackingState escCallMethod).stateNames
          sampleTrackingState.stateNames) :=
  ⟨by decide, by decide,
    claim7_amended_monotone_shrink classCtx sampleTrackingState escCallMethod
      (by decide) (by decide)⟩

/-- Claim C8: a second interface declaration named `Props` in the same file
entirely replaces the first for that contract (no merge): after phase 1 the
tracked member map and unused set are exactly those of the second
declaration, and in the concrete `file8` the member `only1` (present only
in the first declaration) is never reported while `only2` is reported from
the second declaration's node. -/
theorem claim8_redeclaration_replaces (m1 m2 : List TypeElement) (s : WalkerState)
    (hp : s.propsAlias = none) (hs : s.stateAlias = none) :
    ((visitList topCtx s
        (nlist [TsNode.interfaceDecl "Props" m1, TsNode.interfaceDecl "Props" m2])).propNodes
        = typeElementData m2
      ∧ (visitList topCtx s
          (nlist [TsNode.interfaceDecl "Props" m1, TsNode.interfaceDecl "Props" m2])).propNames
          = mapKeys (typeElementData m2))
    ∧ applyRule file8
        = [Failure.mk 5 6 "Unused React property defined in interface: only2"] := by
  refine ⟨?_, rfl⟩
  have e1 : visitNode topCtx s (TsNode.interfaceDecl "Props" m1)
      = { s with propNodes := typeElementData m1
                 propNames := mapKeys (typeElementData m1) } := by
    show visitTypeMembers m1 (interfaceEnter "Props" m1 s) = _
    rw [show interfaceEnter "Props" m1 s
        = { s with propNodes := typeElementData m1
                   propNames := mapKeys (typeElementData m1) } from rfl]
    exact visitTypeMembers_no_alias m1 _ hp hs
  have e2 : visitNode topCtx
      ({ s with propNodes := typeElementData m1
                propNames := mapKeys (typeElementData m1) } : WalkerState)
      (TsNode.interfaceDecl "Props" m2)
      = { s with propNodes := typeElementData m2
                 propNames := mapKeys (typeElementData m2) } := by
    show visitTypeMembers m2 (interfaceEnter "Props" m2 _) = _
    rw [show interfaceEnter "Props" m2
        ({ s with propNodes := typeElementData m1
                  propNames := mapKeys (typeElementData m1) } : WalkerState)
        = { s with propNodes := typeElementData m2
                   propNames := mapKeys (typeElementData m2) } from rfl]
    exact visitTypeMembers_no_alias m2 _ hp hs
  show ((visitNode topCtx (visitNode topCtx s (TsNode.interfaceDecl "Props" m1))
      (TsNode.interfaceDecl "Props" m2)).propNodes = typeElementData m2
    ∧ (visitNode topCtx (visitNode topCtx s (TsNode.interfaceDecl "Props" m1))
        (TsNode.interfaceDecl "Props" m2)).propNames = mapKeys (typeElementData m2))
  rw [e1, e2]
  exact ⟨rfl, rfl⟩

/-- Witness for C8 at concrete declarations and the initial state. -/
theorem claim8_redeclaration_replaces_witness :
    initialState.propsAlias = none ∧ initialState.stateAlias = none
    ∧ (((visitList topCtx initialState
          (nlist [TsNode.interfaceDecl "Props" [TypeElement.mk (some "only1") (Span.mk 1 2)],
                  TsNode.interfaceDecl "Props" [TypeElement.mk (some "only2") (Span.mk 5 6)]])).propNodes
          = typeElementData [TypeElement.mk (some "only2") (Span.mk 5 6)]
        ∧ (visitList topCtx initialState
            (nlist [TsNode.interfaceDecl "Props" [TypeElement.mk (some "only1") (Span.mk 1 2)],
                    TsNode.interfaceDecl "Props" [TypeElement.mk (some "only2") (Span.mk 5 6)]])).propNames
            = mapKeys (typeElementData [TypeElement.mk (some "only2") (Span.mk 5 6)]))
      ∧ applyRule file8
          = [Failure.mk 5 6 "Unused React property defined in interface: only2"]) :=
  ⟨rfl, rfl,
    claim8_redeclaration_replaces
      [TypeElement.mk (some "only1") (Span.mk 1 2)]
      [TypeElement.mk (some "only2") (Span.mk 5 6)] initialState rfl rfl⟩

/-- Claim C9: malformed node shapes are skipped rather than aborting the
(total) analysis: an interface member without a simple name contributes
nothing to the contract's member map; a constructor whose first parameter
is a destructuring pattern leaves the props alias unset, so the run
completes normally and still reports the unread member; a `Props` interface
mixing a nameless member with `x` tracks and reports only `x`. -/
theorem claim9_malformed_shapes_skipped (s0 w0 sx wx sd wd : Nat) :
    (∀ (sp : Span) (rest : List TypeElement),
      typeElementData (TypeElement.mk none sp :: rest) = typeElementData rest)
    ∧ (∀ s : WalkerState, (ctorEnter [Param.mk none] s).propsAlias = none)
    ∧ applyRule (file9 sx wx)
        = [Failure.mk sx wx "Unused React property defined in interface: x"]
    ∧ applyRule (file9b s0 w0 sd wd)
        = [Failure.mk sd wd "Unused React property defined in interface: x"] :=
  ⟨fun _ _ => rfl, fun _ => rfl, rfl, rfl⟩

set_option maxHeartbeats 1000000 in
/-- Claim C10: alias matching is purely textual, not binding-based. With the
constructor alias `data` active, a read `data.x` through a shadowing inner
function parameter of the same text still removes `x` (only `y` is
reported); a standalone occurrence of the text `data` introduced by a new
inner declaration and passed to `use(data)` clears the whole Props unused
set (no finding); symmetrically for the state alias `ps` shadowed inside
Evaluations of the three claim C10 scenario files. -/
theorem file10Read_eval (a1 a2 b1 b2 : Nat) :
    applyRule (file10Read a1 a2 b1 b2)
      = [Failure.mk b1 b2 "Unused React property defined in interface: y"] := rfl

set_option maxHeartbeats 1000000 in
/-- Evaluation of the clearing scenario of claim C10. -/
theorem file10Clear_eval (c1 c2 : Nat) : applyRule (file10Clear c1 c2) = [] := rfl

set_option maxHeartbeats 1000000 in
/-- Evaluation of the state scenario of claim C10. -/
theorem file10State_eval (d1 d2 e1 e2 : Nat) :
    applyRule (file10State d1 d2 e1 e2)
      = [Failure.mk e1 e2 "Unused React state defined in interface: z"] := rfl

/-- Claim C10: alias matching is purely textual, not binding-based. With the
constructor alias `data` active, a read `data.x` through a shadowing inner
function parameter of the same text still removes `x` (only `y` is
reported); a standalone occurrence of the text `data` introduced by a new
inner declaration and passed to `use(data)` clears the whole Props unused
set (no finding); symmetrically for the state alias `ps` shadowed inside
`componentDidUpdate`, whose `ps.y` read removes `y` (only `z` reported). -/
theorem claim10_textual_alias_matching (a1 a2 b1 b2 c1 c2 d1 d2 e1 e2 : Nat) :
    applyRule (file10Read a1 a2 b1 b2)
      = [Failure.mk b1 b2 "Unused React property defined in interface: y"]
    ∧ applyRule (file10Clear c1 c2) = []
    ∧ applyRule (file10State d1 d2 e1 e2)
        = [Failure.mk e1 e2 "Unused React state defined in interface: z"] :=
  ⟨file10Read_eval a1 a2 b1 b2, file10Clear_eval c1 c2, file10State_eval d1 d2 e1 e2⟩

end ReactUnusedPropsAndState
